import Mathlib

/-!
Verification of the orchestration logic of two ockam_command workflows:
node deletion (`src/node/delete.rs`, function `run_impl`) and TCP inlet
creation (`src/tcp/inlet/create.rs`, function `rpc`).

External collaborators (terminal, state store, node control channel) are
parameters of the embedding: the environment supplies their answers, and
every call to one of them is recorded in an event trace, so that theorems
can speak about which side effects happened and in which order.
-/

namespace NodeDelete

/-- The CLI arguments of `ockam node delete` (struct `DeleteCommand` in
`delete.rs`): optional node name, `--all`, `--force`, `--yes`. -/
structure DeleteCommand where
  node_name : Option String
  all : Bool
  force : Bool
  yes : Bool
deriving DecidableEq

/-- The deletion target resolved from the arguments (enum `DeleteMode` in
`delete.rs`). -/
inductive DeleteMode where
  | all : DeleteMode
  | selected : List String → DeleteMode
  | single : String → DeleteMode
  | default : DeleteMode
deriving DecidableEq

/-- Observable side effects of one `run_impl` execution: prompts shown,
state-store deletion calls issued, and stdout writes (plain text plus the
optional machine and json channels). -/
inductive Event where
  | selectPrompt : List String → Event
  | confirmPrompt : String → Event
  | deleteAllNodes : Bool → Event
  | deleteNode : String → Bool → Event
  | deleteSigkill : String → Bool → Event
  | stdout : String → Option String → Option String → Event
deriving DecidableEq

/-- The external collaborators of `run_impl`, per §6 of the spec: the state
store (`list_items_names`, `delete_all_nodes`, `delete_node`,
`delete_sigkill`), the terminal (interactivity flag, multi-select answer,
confirmation answers) and the configured default node name. Each field
gives the answer the collaborator would return when called. -/
structure Env where
  list_items_names : Except String (List String)
  can_ask_for_user_input : Bool
  select_multiple : List String → List String
  prompt_answer : String → Except String Bool
  confirm_interactively_answer : String → Except String Bool
  delete_all_nodes : Bool → Except String Unit
  delete_node : String → Bool → Except String Unit
  delete_sigkill : String → Bool → Except String Unit
  default_node_name : String

/-- Modelled from the spec: the success marker the `fmt_ok!` macro (defined
outside `src/`) puts in front of a message; §4.3 of the spec describes the
aggregated report as listing every name with a ✅/⚠ status. -/
def fmt_ok (s : String) : String := "✅ " ++ s

/-- Modelled from the spec: the warning marker of the `fmt_warn!` macro
(defined outside `src/`). -/
def fmt_warn (s : String) : String := "⚠️ " ++ s

/-- Rust debug formatting (`format!("{:?}", vec)`) of a list of strings, as
used for the interactive-selection confirmation message. -/
def debug_list (ns : List String) : String :=
  "[" ++ String.intercalate ", " (ns.map (fun n => "\"" ++ n ++ "\"")) ++ "]"

/-- Modelled from the spec: `Terminal::confirmed_with_flag_or_prompt`
(terminal crate, not under `src/`) per §4.1 of the spec — if the flag is
set it returns true without prompting, otherwise it shows the prompt and
returns the interactive answer (which can fail in a non-interactive
session). Returns the emitted events together with the result. -/
def confirmed_with_flag_or_prompt (env : Env) (flag : Bool) (msg : String) :
    List Event × Except String Bool :=
  if flag then ([], Except.ok true)
  else ([Event.confirmPrompt msg], env.prompt_answer msg)

/-- Modelled from the spec: `Terminal::confirm_interactively` (terminal
crate, not under `src/`) — always shows the prompt and returns the
interactive answer; `delete.rs` applies `.unwrap_or(false)` to its result,
so an error counts as a declined confirmation. -/
def confirm_interactively (env : Env) (msg : String) : List Event × Bool :=
  ([Event.confirmPrompt msg],
    match env.confirm_interactively_answer msg with
    | Except.ok b => b
    | Except.error _ => false)

/-- The mode resolution of `run_impl` (`delete.rs` lines 54-69): `--all`
wins, otherwise an explicit name, otherwise interactive multi-selection
when there are known nodes and the terminal can ask, otherwise the default
node. -/
def resolve_delete_mode (all : Bool) (node_name : Option String)
    (all_nodes : List String) (can_ask : Bool) (picks : List String) : DeleteMode :=
  if all then DeleteMode.all
  else match node_name with
    | some n => DeleteMode.single n
    | none =>
      if !all_nodes.isEmpty && can_ask then DeleteMode.selected picks
      else DeleteMode.default

/-- The per-name outcome string of the interactive-selection deletion loop
(`delete.rs` lines 115-129): attempt `delete_sigkill` and format a success
or failure line carrying the error text. -/
def deletionOutcome (env : Env) (force : Bool) (name : String) : String :=
  match env.delete_sigkill name force with
  | Except.ok _ => fmt_ok ("Deleted Node: \x27" ++ name ++ "\x27\n")
  | Except.error e =>
      fmt_warn ("Failed to delete Node: \x27" ++ name ++ "\x27, Error: \x27" ++ e ++ "\x27\n")

/-- The body of `run_impl` in `delete.rs`: list the known nodes, resolve the
deletion mode, then run the confirmation-gated branch for that mode.
Returns the trace of collaborator calls together with the command's
result. -/
def run_impl (env : Env) (cmd : DeleteCommand) : List Event × Except String Unit :=
  match env.list_items_names with
  | Except.error e => ([], Except.error e)
  | Except.ok all_nodes =>
    let mode := resolve_delete_mode cmd.all cmd.node_name all_nodes
      env.can_ask_for_user_input (env.select_multiple all_nodes)
    let tr0 : List Event :=
      match mode with
      | DeleteMode.selected _ => [Event.selectPrompt all_nodes]
      | _ => []
    match mode with
    | DeleteMode.all =>
      let (tr1, c) := confirmed_with_flag_or_prompt env cmd.yes
        "Are you sure you want to delete all nodes?"
      match c with
      | Except.error e => (tr0 ++ tr1, Except.error e)
      | Except.ok false => (tr0 ++ tr1, Except.ok ())
      | Except.ok true =>
        match env.delete_all_nodes cmd.force with
        | Except.error e => (tr0 ++ tr1 ++ [Event.deleteAllNodes cmd.force], Except.error e)
        | Except.ok _ =>
          (tr0 ++ tr1 ++ [Event.deleteAllNodes cmd.force,
            Event.stdout (fmt_ok "All nodes have been deleted") none none], Except.ok ())
    | DeleteMode.single node_name =>
      let (tr1, c) := confirmed_with_flag_or_prompt env cmd.yes
        "Are you sure you want to delete this node?"
      match c with
      | Except.error e => (tr0 ++ tr1, Except.error e)
      | Except.ok false => (tr0 ++ tr1, Except.ok ())
      | Except.ok true =>
        match env.delete_node node_name cmd.force with
        | Except.error e => (tr0 ++ tr1 ++ [Event.deleteNode node_name cmd.force], Except.error e)
        | Except.ok _ =>
          (tr0 ++ tr1 ++ [Event.deleteNode node_name cmd.force,
            Event.stdout (fmt_ok ("Node with name \x27" ++ node_name ++ "\x27 has been deleted"))
              (some node_name) (some node_name)], Except.ok ())
    | DeleteMode.selected selected_node_names =>
      if selected_node_names.isEmpty then
        (tr0 ++ [Event.stdout "No nodes selected for deletion" none none], Except.ok ())
      else
        let msg := "Would you like to delete these items : "
          ++ debug_list selected_node_names ++ "?"
        let (tr1, c) := confirm_interactively env msg
        if c then
          (tr0 ++ tr1
            ++ selected_node_names.map (fun n => Event.deleteSigkill n cmd.force)
            ++ [Event.stdout
                 (String.join (selected_node_names.map (deletionOutcome env cmd.force)))
                 none none],
            Except.ok ())
        else (tr0 ++ tr1, Except.ok ())
    | DeleteMode.default =>
      let (tr1, c) := confirmed_with_flag_or_prompt env cmd.yes
        "Are you sure you want to delete the default node?"
      match c with
      | Except.error e => (tr0 ++ tr1, Except.error e)
      | Except.ok false => (tr0 ++ tr1, Except.ok ())
      | Except.ok true =>
        let node_name := env.default_node_name
        match env.delete_node node_name cmd.force with
        | Except.error e => (tr0 ++ tr1 ++ [Event.deleteNode node_name cmd.force], Except.error e)
        | Except.ok _ =>
          (tr0 ++ tr1 ++ [Event.deleteNode node_name cmd.force,
            Event.stdout (fmt_ok ("Node with name \x27" ++ node_name ++ "\x27 has been deleted"))
              (some node_name) (some node_name)], Except.ok ())

/-- Recognizer for the interactive-selection mode. -/
def isSelectedMode : DeleteMode → Bool
  | DeleteMode.selected _ => true
  | _ => false

/-- Recognizer for state-store deletion calls in a trace. -/
def isDeletionEvent : Event → Bool
  | Event.deleteAllNodes _ => true
  | Event.deleteNode _ _ => true
  | Event.deleteSigkill _ _ => true
  | _ => false

/-- Recognizer for confirmation prompts in a trace. -/
def isConfirmPromptEvent : Event → Bool
  | Event.confirmPrompt _ => true
  | _ => false

/-- Recognizer for stdout writes in a trace. -/
def isStdoutEvent : Event → Bool
  | Event.stdout _ _ _ => true
  | _ => false

/-- The Node Selection Resolver exactly as §4.2 of the spec words it
(decision order, first match wins): all flag, then explicit name, then
interactive selection when known names exist, otherwise the default node.
Stated only for comparison with the source resolution
`resolve_delete_mode`. -/
def resolve_spec (explicitName : Option String) (allFlag : Bool)
    (knownNames : List String) (interactive : Bool) (userPicks : List String) :
    DeleteMode :=
  if allFlag then DeleteMode.all
  else
    match explicitName with
    | some n => DeleteMode.single n
    | none =>
      if knownNames ≠ [] ∧ interactive = true then DeleteMode.selected userPicks
      else DeleteMode.default

/-- Every deletion event produced by mapping `deleteSigkill` over names
passes the deletion-event filter unchanged. -/
theorem filter_deletion_of_sigkill_map (ns : List String) (force : Bool) :
    (ns.map (fun n => Event.deleteSigkill n force)).filter isDeletionEvent
      = ns.map (fun n => Event.deleteSigkill n force) := by
  induction ns with
  | nil => rfl
  | cons n t ih => simp [isDeletionEvent, ih]

/-- No stdout event occurs among mapped `deleteSigkill` events. -/
theorem filter_stdout_of_sigkill_map (ns : List String) (force : Bool) :
    (ns.map (fun n => Event.deleteSigkill n force)).filter isStdoutEvent = [] := by
  induction ns with
  | nil => rfl
  | cons n t ih => simp [isStdoutEvent, ih]

/-- C6: the delete command resolves its target first-match-wins in the
order all flag, explicit name, interactive selection (non-empty known
names in an interactive session), default — it agrees with the spec's
resolver on every input, and in particular an empty known-name list with
no explicit name and no flag yields the Default target rather than
failing. -/
theorem delete_mode_resolution_matches_spec :
    (∀ (allFlag : Bool) (explicitName : Option String) (knownNames : List String)
        (interactive : Bool) (userPicks : List String),
      resolve_delete_mode allFlag explicitName knownNames interactive userPicks
        = resolve_spec explicitName allFlag knownNames interactive userPicks) ∧
    (∀ (interactive : Bool) (userPicks : List String),
      resolve_delete_mode false none [] interactive userPicks = DeleteMode.default) := by
  constructor
  · intro allFlag explicitName knownNames interactive userPicks
    cases allFlag <;> cases explicitName <;> cases knownNames <;> cases interactive <;>
      simp [resolve_delete_mode, resolve_spec]
  · intro interactive userPicks
    simp [resolve_delete_mode]

/-- C7: when the interactive multi-select returns zero picks, `run_impl`
writes the "No nodes selected for deletion" message and returns success;
no confirmation prompt is shown and no deletion is attempted. -/
theorem empty_selection_short_circuits (env : Env) (cmd : DeleteCommand)
    (nodes : List String)
    (hList : env.list_items_names = Except.ok nodes)
    (hAll : cmd.all = false)
    (hName : cmd.node_name = none)
    (hNodes : nodes.isEmpty = false)
    (hAsk : env.can_ask_for_user_input = true)
    (hPicks : env.select_multiple nodes = []) :
    run_impl env cmd
      = ([Event.selectPrompt nodes,
          Event.stdout "No nodes selected for deletion" none none], Except.ok ()) ∧
    (run_impl env cmd).1.filter isConfirmPromptEvent = [] ∧
    (run_impl env cmd).1.filter isDeletionEvent = [] := by
  have h1 : run_impl env cmd
      = ([Event.selectPrompt nodes,
          Event.stdout "No nodes selected for deletion" none none], Except.ok ()) := by
    simp [run_impl, resolve_delete_mode, hList, hAll, hName, hNodes, hAsk, hPicks]
  refine ⟨h1, ?_, ?_⟩ <;> rw [h1] <;> rfl

/-- C1: with a confirmed interactive selection, `run_impl` attempts
`delete_sigkill` for every selected name in selection order (one name's
failure never prevents the remaining attempts), returns success, and
writes a single aggregated report holding exactly one outcome per
selected name — marked ok with the name on success, warn with the name
and the underlying error text on failure. -/
theorem selected_deletion_reports_every_outcome (env : Env) (cmd : DeleteCommand)
    (nodes ns : List String)
    (hList : env.list_items_names = Except.ok nodes)
    (hAll : cmd.all = false)
    (hName : cmd.node_name = none)
    (hNodes : nodes.isEmpty = false)
    (hAsk : env.can_ask_for_user_input = true)
    (hPicks : env.select_multiple nodes = ns)
    (hNe : ns.isEmpty = false)
    (hConfirm : ∀ m, env.confirm_interactively_answer m = Except.ok true) :
    (run_impl env cmd).2 = Except.ok () ∧
    (run_impl env cmd).1.filter isDeletionEvent
      = ns.map (fun n => Event.deleteSigkill n cmd.force) ∧
    (ns.map (deletionOutcome env cmd.force)).length = ns.length ∧
    (run_impl env cmd).1.filter isStdoutEvent
      = [Event.stdout (String.join (ns.map (deletionOutcome env cmd.force))) none none] ∧
    (∀ n ∈ ns,
      (env.delete_sigkill n cmd.force = Except.ok () →
        deletionOutcome env cmd.force n = fmt_ok ("Deleted Node: \x27" ++ n ++ "\x27\n")) ∧
      (∀ e, env.delete_sigkill n cmd.force = Except.error e →
        deletionOutcome env cmd.force n
          = fmt_warn ("Failed to delete Node: \x27" ++ n ++ "\x27, Error: \x27" ++ e
              ++ "\x27\n"))) := by
  have h1 : run_impl env cmd
      = (Event.selectPrompt nodes
          :: Event.confirmPrompt ("Would you like to delete these items : "
              ++ debug_list ns ++ "?")
          :: (ns.map (fun n => Event.deleteSigkill n cmd.force)
            ++ [Event.stdout (String.join (ns.map (deletionOutcome env cmd.force))) none none]),
          Except.ok ()) := by
    simp [run_impl, resolve_delete_mode, confirm_interactively,
      hList, hAll, hName, hNodes, hAsk, hPicks, hNe, hConfirm]
  refine ⟨?_, ?_, ?_, ?_, ?_⟩
  · rw [h1]
  · rw [h1]
    simp only [List.filter_cons, List.filter_append]
    simp [isDeletionEvent, isConfirmPromptEvent, filter_deletion_of_sigkill_map]
  · simp
  · rw [h1]
    simp only [List.filter_cons, List.filter_append]
    simp [isStdoutEvent, filter_stdout_of_sigkill_map]
  · intro n _
    constructor
    · intro h
      simp [deletionOutcome, h]
    · intro e h
      simp [deletionOutcome, h]

/-- C8 (amended): on the All, Explicit and Default paths the yes flag
proceeds without any confirmation prompt; the InteractiveSelection path
with a non-empty pick always shows its confirmation prompt, yes flag or
not (`confirm_interactively` never receives the flag); and on every path,
for either value of the yes flag, whenever a confirmation prompt was
shown and every interactive confirmation is declined, `run_impl` performs
no deletion call at all and exits with success. -/
theorem confirmation_gate_yes_and_decline (env : Env) (cmd : DeleteCommand)
    (nodes : List String)
    (hList : env.list_items_names = Except.ok nodes) :
    (isSelectedMode (resolve_delete_mode cmd.all cmd.node_name nodes
        env.can_ask_for_user_input (env.select_multiple nodes)) = false →
      cmd.yes = true →
      (run_impl env cmd).1.filter isConfirmPromptEvent = []) ∧
    (cmd.yes = false →
      (∀ m, env.prompt_answer m = Except.ok false) →
      (∀ m, env.confirm_interactively_answer m = Except.ok false) →
      (run_impl env cmd).2 = Except.ok () ∧
      (run_impl env cmd).1.filter isDeletionEvent = []) ∧
    (∀ ns, resolve_delete_mode cmd.all cmd.node_name nodes
        env.can_ask_for_user_input (env.select_multiple nodes) = DeleteMode.selected ns →
      ns.isEmpty = false →
      (run_impl env cmd).1.filter isConfirmPromptEvent ≠ []) ∧
    ((∀ m, env.prompt_answer m = Except.ok false) →
      (∀ m, env.confirm_interactively_answer m = Except.ok false) →
      (run_impl env cmd).1.filter isConfirmPromptEvent ≠ [] →
      (run_impl env cmd).2 = Except.ok () ∧
      (run_impl env cmd).1.filter isDeletionEvent = []) := by
  refine ⟨?_, ?_, ?_, ?_⟩
  · intro hmode hyes
    rcases hres : resolve_delete_mode cmd.all cmd.node_name nodes
        env.can_ask_for_user_input (env.select_multiple nodes) with _ | ns | n | _
    · rcases hd : env.delete_all_nodes cmd.force with _ | e <;>
        simp [run_impl, hList, hres, hd, hyes, confirmed_with_flag_or_prompt,
          isConfirmPromptEvent]
    · rw [hres] at hmode
      simp [isSelectedMode] at hmode
    · rcases hd : env.delete_node n cmd.force with _ | e <;>
        simp [run_impl, hList, hres, hd, hyes, confirmed_with_flag_or_prompt,
          isConfirmPromptEvent]
    · rcases hd : env.delete_node env.default_node_name cmd.force with _ | e <;>
        simp [run_impl, hList, hres, hd, hyes, confirmed_with_flag_or_prompt,
          isConfirmPromptEvent]
  · intro hyes hprompt hconfirm
    rcases hres : resolve_delete_mode cmd.all cmd.node_name nodes
        env.can_ask_for_user_input (env.select_multiple nodes) with _ | ns | n | _
    · simp [run_impl, hList, hres, hyes, hprompt, confirmed_with_flag_or_prompt,
        isConfirmPromptEvent, isDeletionEvent]
    · rcases hns : ns.isEmpty with _ | _
      · simp [run_impl, hList, hres, hns, confirm_interactively, hconfirm,
          isDeletionEvent, isConfirmPromptEvent]
      · simp [run_impl, hList, hres, hns, confirm_interactively, hconfirm,
          isDeletionEvent, isConfirmPromptEvent]
    · simp [run_impl, hList, hres, hyes, hprompt, confirmed_with_flag_or_prompt,
        isConfirmPromptEvent, isDeletionEvent]
    · simp [run_impl, hList, hres, hyes, hprompt, confirmed_with_flag_or_prompt,
        isConfirmPromptEvent, isDeletionEvent]
  · intro ns hres hne
    rcases hc : env.confirm_interactively_answer
        ("Would you like to delete these items : " ++ debug_list ns ++ "?") with eMsg | b
    · simp [run_impl, hList, hres, hne, confirm_interactively, hc,
        isConfirmPromptEvent, List.filter_append]
    · cases b <;>
        simp [run_impl, hList, hres, hne, confirm_interactively, hc,
          isConfirmPromptEvent, List.filter_append]
  · intro hprompt hconfirm hshown
    rcases hres : resolve_delete_mode cmd.all cmd.node_name nodes
        env.can_ask_for_user_input (env.select_multiple nodes) with _ | ns | n | _
    · cases hyes : cmd.yes with
      | false =>
        simp [run_impl, hList, hres, hyes, hprompt, confirmed_with_flag_or_prompt,
          isConfirmPromptEvent, isDeletionEvent]
      | true =>
        exfalso
        apply hshown
        rcases hd : env.delete_all_nodes cmd.force with _ | e <;>
          simp [run_impl, hList, hres, hyes, hd, confirmed_with_flag_or_prompt,
            isConfirmPromptEvent]
    · rcases hns : ns.isEmpty with _ | _
      · simp [run_impl, hList, hres, hns, confirm_interactively, hconfirm,
          isDeletionEvent, isConfirmPromptEvent]
      · exfalso
        apply hshown
        simp [run_impl, hList, hres, hns, isConfirmPromptEvent]
    · cases hyes : cmd.yes with
      | false =>
        simp [run_impl, hList, hres, hyes, hprompt, confirmed_with_flag_or_prompt,
          isConfirmPromptEvent, isDeletionEvent]
      | true =>
        exfalso
        apply hshown
        rcases hd : env.delete_node n cmd.force with _ | e <;>
          simp [run_impl, hList, hres, hyes, hd, confirmed_with_flag_or_prompt,
            isConfirmPromptEvent]
    · cases hyes : cmd.yes with
      | false =>
        simp [run_impl, hList, hres, hyes, hprompt, confirmed_with_flag_or_prompt,
          isConfirmPromptEvent, isDeletionEvent]
      | true =>
        exfalso
        apply hshown
        rcases hd : env.delete_node env.default_node_name cmd.force with _ | e <;>
          simp [run_impl, hList, hres, hyes, hd, confirmed_with_flag_or_prompt,
            isConfirmPromptEvent]

/-- A concrete store/terminal with two known nodes where deleting "a"
succeeds and deleting "b" fails, everything confirmed. -/
def envSel : Env :=
  { list_items_names := Except.ok ["a", "b"]
    can_ask_for_user_input := true
    select_multiple := fun l => l
    prompt_answer := fun _ => Except.ok true
    confirm_interactively_answer := fun _ => Except.ok true
    delete_all_nodes := fun _ => Except.ok ()
    delete_node := fun _ _ => Except.ok ()
    delete_sigkill := fun n _ =>
      if n = "a" then Except.ok () else Except.error "node not found"
    default_node_name := "default" }

/-- `ockam node delete` with no name and no flags. -/
def cmdPlain : DeleteCommand :=
  { node_name := none, all := false, force := false, yes := false }

/-- `ockam node delete --yes` with no name and no `--all`. -/
def cmdYesOnly : DeleteCommand :=
  { node_name := none, all := false, force := false, yes := true }

/-- `ockam node delete --all --yes`. -/
def cmdAllYes : DeleteCommand :=
  { node_name := none, all := true, force := false, yes := true }

/-- A concrete terminal whose multi-select returns zero picks. -/
def envNonePicked : Env :=
  { list_items_names := Except.ok ["n1", "n2"]
    can_ask_for_user_input := true
    select_multiple := fun _ => []
    prompt_answer := fun _ => Except.ok true
    confirm_interactively_answer := fun _ => Except.ok true
    delete_all_nodes := fun _ => Except.ok ()
    delete_node := fun _ _ => Except.ok ()
    delete_sigkill := fun _ _ => Except.ok ()
    default_node_name := "default" }

/-- A concrete terminal that declines every confirmation. -/
def envDecline : Env :=
  { list_items_names := Except.ok ["n1"]
    can_ask_for_user_input := true
    select_multiple := fun l => l
    prompt_answer := fun _ => Except.ok false
    confirm_interactively_answer := fun _ => Except.ok false
    delete_all_nodes := fun _ => Except.ok ()
    delete_node := fun _ _ => Except.ok ()
    delete_sigkill := fun _ _ => Except.ok ()
    default_node_name := "default" }

/-- C8 (counterexample): running with the yes flag set still shows a
confirmation prompt on the InteractiveSelection path — the selection
confirmation goes through `confirm_interactively`, which never receives
the yes flag — refuting "for every confirmation-gated deletion path, if
the yes flag is set the action proceeds without prompting". -/
theorem yes_flag_still_prompts_on_selection :
    cmdYesOnly.yes = true ∧
    (run_impl envSel cmdYesOnly).1.filter isConfirmPromptEvent ≠ [] := by
  constructor
  · rfl
  · decide

/-- Witness for C7 at a concrete store and terminal. -/
theorem empty_selection_short_circuits_witness :
    run_impl envNonePicked cmdPlain
      = ([Event.selectPrompt ["n1", "n2"],
          Event.stdout "No nodes selected for deletion" none none], Except.ok ()) ∧
    (run_impl envNonePicked cmdPlain).1.filter isConfirmPromptEvent = [] ∧
    (run_impl envNonePicked cmdPlain).1.filter isDeletionEvent = [] :=
  empty_selection_short_circuits envNonePicked cmdPlain ["n1", "n2"]
    rfl rfl rfl rfl rfl rfl

/-- Witness for C1 at a concrete store where one deletion fails. -/
theorem selected_deletion_reports_every_outcome_witness :
    (run_impl envSel cmdPlain).2 = Except.ok () ∧
    (run_impl envSel cmdPlain).1.filter isDeletionEvent
      = (["a", "b"].map (fun n => Event.deleteSigkill n cmdPlain.force)) ∧
    ((["a", "b"].map (deletionOutcome envSel cmdPlain.force)).length = ["a", "b"].length) ∧
    (run_impl envSel cmdPlain).1.filter isStdoutEvent
      = [Event.stdout
          (String.join (["a", "b"].map (deletionOutcome envSel cmdPlain.force))) none none] ∧
    (∀ n ∈ ["a", "b"],
      (envSel.delete_sigkill n cmdPlain.force = Except.ok () →
        deletionOutcome envSel cmdPlain.force n
          = fmt_ok ("Deleted Node: \x27" ++ n ++ "\x27\n")) ∧
      (∀ e, envSel.delete_sigkill n cmdPlain.force = Except.error e →
        deletionOutcome envSel cmdPlain.force n
          = fmt_warn ("Failed to delete Node: \x27" ++ n ++ "\x27, Error: \x27" ++ e
              ++ "\x27\n"))) :=
  selected_deletion_reports_every_outcome envSel cmdPlain ["a", "b"] ["a", "b"]
    rfl rfl rfl rfl rfl rfl rfl (fun _ => rfl)

/-- Witness for the amended C8: with `--all --yes` no confirmation prompt
appears; with everything declined and no yes flag the command succeeds
without any deletion call; and with the yes flag set on an interactive
selection the confirmation prompt still appears and its decline again
yields success without any deletion call. -/
theorem confirmation_gate_yes_and_decline_witness :
    (run_impl envNonePicked cmdAllYes).1.filter isConfirmPromptEvent = [] ∧
    ((run_impl envDecline cmdPlain).2 = Except.ok () ∧
      (run_impl envDecline cmdPlain).1.filter isDeletionEvent = []) ∧
    (run_impl envDecline cmdYesOnly).1.filter isConfirmPromptEvent ≠ [] ∧
    ((run_impl envDecline cmdYesOnly).2 = Except.ok () ∧
      (run_impl envDecline cmdYesOnly).1.filter isDeletionEvent = []) :=
  ⟨(confirmation_gate_yes_and_decline envNonePicked cmdAllYes ["n1", "n2"] rfl).1 rfl rfl,
    (confirmation_gate_yes_and_decline envDecline cmdPlain ["n1"] rfl).2.1 rfl
      (fun _ => rfl) (fun _ => rfl),
    (confirmation_gate_yes_and_decline envDecline cmdYesOnly ["n1"] rfl).2.2.1
      ["n1"] rfl rfl,
    (confirmation_gate_yes_and_decline envDecline cmdYesOnly ["n1"] rfl).2.2.2
      (fun _ => rfl) (fun _ => rfl)
      ((confirmation_gate_yes_and_decline envDecline cmdYesOnly ["n1"] rfl).2.2.1
        ["n1"] rfl rfl)⟩

end NodeDelete

namespace InletCreate

/-- Reply status codes of the node control channel (`ockam_core::api::Status`,
declared outside `src/`; `create.rs` only compares against `BadRequest`). -/
inductive Status where
  | ok : Status
  | badRequest : Status
  | unauthorized : Status
  | forbidden : Status
  | notFound : Status
  | methodNotAllowed : Status
  | internalServerError : Status
  | notImplemented : Status
deriving DecidableEq

/-- The error payload of a failed reply (`ockam_core::api::Error`): its
message is optional, `create.rs` reads it with
`e.message().unwrap_or("bad request when creating an inlet")`. -/
structure ApiError where
  message : Option String
deriving DecidableEq

/-- A reply from the node control channel (`ockam_core::api::Reply`):
either successful with a value, or failed with an error payload and an
optional status code. -/
inductive Reply (α : Type) where
  | successful : α → Reply α
  | failed : ApiError → Option Status → Reply α
deriving DecidableEq

/-- The inlet status the node returns on success
(`ockam_api::nodes::models::portal::InletStatus`); `create.rs` reports its
`bind_addr` on the machine channel. -/
structure InletStatus where
  bind_addr : String
  worker_addr : String
  inlet_alias : String
  outlet_route : String
deriving DecidableEq

/-- Protocol codes of multiaddress segments (`ockam_multiaddr`); only the
`Project` code matters to `create.rs`, which checks whether the route
starts with a project segment. -/
inductive ProtoCode where
  | project : ProtoCode
  | space : ProtoCode
  | node : ProtoCode
  | service : ProtoCode
  | secure : ProtoCode
  | forward : ProtoCode
  | tcp : ProtoCode
  | dnsaddr : ProtoCode
  | worker : ProtoCode
deriving DecidableEq

/-- The CLI arguments of `ockam tcp-inlet create` (struct `CreateCommand` in
`create.rs`), after parsing: the route is kept as its list of protocol
codes, durations are in milliseconds. Field names follow the source where
Lean allows it (`at`, `from`, `to` and `alias` are reserved, hence `at_node`,
`from_addr`, `to_route`, `inlet_alias`). -/
structure CreateCommand where
  at_node : Option String
  from_addr : String
  to_route : List ProtoCode
  authorized : Option String
  inlet_alias : Option String
  connection_wait : Nat
  retry_wait : Nat
  timeout : Option Nat
deriving DecidableEq

/-- Modelled from the spec: `MultiAddr::matches(0, &[Project::CODE.into()])`
(`ockam_multiaddr`, not under `src/`) — per §4.4 of the spec this is the
check that the remote route targets a managed-project address space, i.e.
that the route begins with a project segment. -/
def matches_project_at_start (route : List ProtoCode) : Bool :=
  match route with
  | ProtoCode.project :: _ => true
  | _ => false

/-- Observable side effects of the `create_inlet` async block in `rpc`:
probe attempts (calls to `node.create_inlet`), spinner message updates,
and sleeps between attempts (duration in milliseconds). -/
inductive InletEvent where
  | probe : Nat → InletEvent
  | spinnerUpdate : InletEvent
  | sleep : Nat → InletEvent
deriving DecidableEq

/-- The fatal errors the `create_inlet` block of `rpc` can return: a
transport/API-level error propagated by `?`, the bad-request error built
with `Error::new(Origin::Api, Kind::Invalid, ..)`, the `port_is_free_guard`
failure, the project-with-authorized misconfiguration, and the
zero-retry-wait "Failed to create TCP inlet" error. -/
inductive FatalErr where
  | apiError : String → FatalErr
  | badRequest : String → FatalErr
  | addressInUse : FatalErr
  | authorizedWithProject : FatalErr
  | failedToCreateInlet : FatalErr
deriving DecidableEq

/-- Outcome of the retry loop: the inlet status on success, a fatal error,
or still running when the fuel bound is reached (the source loop is
unbounded; fuel only truncates observation). -/
inductive LoopOutcome where
  | success : InletStatus → LoopOutcome
  | fatal : FatalErr → LoopOutcome
  | running : LoopOutcome
deriving DecidableEq

/-- The retry loop of the `create_inlet` block (`create.rs` lines 120-164).
`probe n` is the node's answer to the n-th `node.create_inlet` call (an
`Err` models a transport/API failure of the call itself, a `Reply` models
the node's reply); `retry_wait` is `cmd.retry_wait` in milliseconds; `pb`
says whether a progress spinner exists. Returns the event trace, the final
value of the shared `is_finished` flag contribution, and the outcome. -/
def create_inlet_loop (probe : Nat → Except String (Reply InletStatus))
    (retry_wait : Nat) (pb : Bool) :
    Nat → Nat → List InletEvent × Bool × LoopOutcome
  | 0, _ => ([], false, LoopOutcome.running)
  | fuel + 1, attempt =>
    match probe attempt with
    | Except.error e => ([InletEvent.probe attempt], false, LoopOutcome.fatal (FatalErr.apiError e))
    | Except.ok (Reply.successful inlet_status) =>
        ([InletEvent.probe attempt], true, LoopOutcome.success inlet_status)
    | Except.ok (Reply.failed e s) =>
      if s = some Status.badRequest then
        ([InletEvent.probe attempt], false,
          LoopOutcome.fatal (FatalErr.badRequest
            (e.message.getD "bad request when creating an inlet")))
      else if retry_wait = 0 then
        ([InletEvent.probe attempt], false, LoopOutcome.fatal FatalErr.failedToCreateInlet)
      else
        let rest := create_inlet_loop probe retry_wait pb fuel (attempt + 1)
        (InletEvent.probe attempt
            :: ((if pb then [InletEvent.spinnerUpdate] else [])
              ++ InletEvent.sleep retry_wait :: rest.1),
          rest.2.1, rest.2.2)

/-- The whole `create_inlet` async block (`create.rs` lines 114-167):
first `port_is_free_guard(&cmd.from)` (its outcome is the `port_free`
parameter, the guard itself lives outside `src/`), then the
project-with-authorized misconfiguration check on the normalized route,
then the retry loop. -/
def create_inlet_block (cmd : CreateCommand) (port_free : Bool) (pb : Bool)
    (probe : Nat → Except String (Reply InletStatus)) (fuel : Nat) :
    List InletEvent × Bool × LoopOutcome :=
  if port_free = false then ([], false, LoopOutcome.fatal FatalErr.addressInUse)
  else if matches_project_at_start cmd.to_route && cmd.authorized.isSome then
    ([], false, LoopOutcome.fatal FatalErr.authorizedWithProject)
  else create_inlet_loop probe cmd.retry_wait pb fuel 0

/-- Result of the `rpc` function as observable at the command boundary: on
success the machine-channel output (the reply's `bind_addr`) together with
the final value of the `is_finished` flag; otherwise the fatal error, or
`running` when the fuel bound truncated the loop. -/
inductive RpcResult where
  | ok : String → Bool → RpcResult
  | err : FatalErr → RpcResult
  | running : RpcResult
deriving DecidableEq

/-- The `rpc` function of `create.rs` after argument normalization: run the
`create_inlet` block and, on success, report the returned inlet's
`bind_addr` on the machine channel (lines 194-215). -/
def rpc (cmd : CreateCommand) (port_free : Bool) (pb : Bool)
    (probe : Nat → Except String (Reply InletStatus)) (fuel : Nat) :
    List InletEvent × RpcResult :=
  let r := create_inlet_block cmd port_free pb probe fuel
  match r.2.2 with
  | LoopOutcome.success inlet_status => (r.1, RpcResult.ok inlet_status.bind_addr r.2.1)
  | LoopOutcome.fatal e => (r.1, RpcResult.err e)
  | LoopOutcome.running => (r.1, RpcResult.running)

/-- Modelled from the spec: the progress reporter (§4.5) polls the shared
completion flag and stops once it observes true; `try_join!` in `rpc`
waits for it, so at a successful return the reporter has stopped exactly
when the flag it polls is true. -/
def reporterStopped (is_finished : Bool) : Bool := is_finished

/-- Recognizer for probe attempts in an inlet trace. -/
def isProbeEvent : InletEvent → Bool
  | InletEvent.probe _ => true
  | _ => false

/-- Recognizer for sleeps in an inlet trace. -/
def isSleepEvent : InletEvent → Bool
  | InletEvent.sleep _ => true
  | _ => false

/-- C2: with `retry-wait = 0` and a remote whose every reply is a
non-successful, non-bad-request reply, inlet creation performs exactly one
probe and fails with the fatal "Failed to create TCP inlet" error — the
trace holds a single probe event and no sleep, so there is no second
attempt. -/
theorem zero_retry_wait_fails_after_one_probe (cmd : CreateCommand) (pb : Bool)
    (probe : Nat → Except String (Reply InletStatus)) (fuel : Nat)
    (hRw : cmd.retry_wait = 0)
    (hGuard : (matches_project_at_start cmd.to_route && cmd.authorized.isSome) = false)
    (hProbe : ∀ n, ∃ e s, probe n = Except.ok (Reply.failed e s)
      ∧ s ≠ some Status.badRequest) :
    rpc cmd true pb probe (fuel + 1)
      = ([InletEvent.probe 0], RpcResult.err FatalErr.failedToCreateInlet) := by
  obtain ⟨e, s, hp, hs⟩ := hProbe 0
  simp [rpc, create_inlet_block, create_inlet_loop, hGuard, hRw, hp, hs]

/-- C3: a failed reply carrying the explicit bad-request status makes the
retry loop propagate a fatal bad-request error at once, whatever the
configured retry wait: the trace of that iteration is one probe event —
no sleep, no further probe. -/
theorem bad_request_reply_is_fatal
    (probe : Nat → Except String (Reply InletStatus))
    (retry_wait : Nat) (pb : Bool) (fuel attempt : Nat) (e : ApiError)
    (hp : probe attempt = Except.ok (Reply.failed e (some Status.badRequest))) :
    create_inlet_loop probe retry_wait pb (fuel + 1) attempt
      = ([InletEvent.probe attempt], false,
          LoopOutcome.fatal (FatalErr.badRequest
            (e.message.getD "bad request when creating an inlet"))) := by
  simp [create_inlet_loop, hp]

/-- C4: when the local bind address is already occupied
(`port_is_free_guard` fails), inlet creation returns the fatal
address-in-use error with an empty trace: no probe is ever issued. -/
theorem occupied_bind_address_fails_before_any_probe (cmd : CreateCommand)
    (pb : Bool) (probe : Nat → Except String (Reply InletStatus)) (fuel : Nat) :
    rpc cmd false pb probe fuel = ([], RpcResult.err FatalErr.addressInUse) := by
  simp [rpc, create_inlet_block]

/-- C5: when the normalized route starts with a project segment and an
authorized identity was supplied, inlet creation fails fatally with an
empty trace — no probe, no sleep, hence no retry — and when the bind
address is free the error is the project-with-authorized
misconfiguration. -/
theorem authorized_with_project_fails_before_any_probe (cmd : CreateCommand)
    (port_free pb : Bool) (probe : Nat → Except String (Reply InletStatus)) (fuel : Nat)
    (hProj : matches_project_at_start cmd.to_route = true)
    (hAuth : cmd.authorized.isSome = true) :
    (rpc cmd port_free pb probe fuel).1 = [] ∧
    (∃ e, (rpc cmd port_free pb probe fuel).2 = RpcResult.err e) ∧
    (port_free = true →
      rpc cmd port_free pb probe fuel
        = ([], RpcResult.err FatalErr.authorizedWithProject)) := by
  cases port_free
  · simp [rpc, create_inlet_block]
  · simp [rpc, create_inlet_block, hProj, hAuth]

/-- C9: when the remote replies Successful on the first probe (and the
reply reports the requested bind address back), the command succeeds after
that single probe, the machine channel carries the resolved `--from`
value, and the completion flag the progress reporter polls is true — the
reporter, joined by `try_join!`, has stopped by the time the command
returns. -/
theorem first_probe_success_reports_from_addr (cmd : CreateCommand) (pb : Bool)
    (probe : Nat → Except String (Reply InletStatus)) (fuel : Nat) (st : InletStatus)
    (hGuard : (matches_project_at_start cmd.to_route && cmd.authorized.isSome) = false)
    (hProbe : probe 0 = Except.ok (Reply.successful st))
    (hBind : st.bind_addr = cmd.from_addr) :
    rpc cmd true pb probe (fuel + 1)
      = ([InletEvent.probe 0], RpcResult.ok cmd.from_addr true) ∧
    reporterStopped true = true := by
  constructor
  · simp [rpc, create_inlet_block, create_inlet_loop, hGuard, hProbe, hBind]
  · rfl

/-- C10: when the `create_inlet` call itself fails (an `Err` result, as
opposed to a Failed reply), the retry loop aborts at once with that error,
even with a nonzero retry wait: one probe event, no sleep, no further
probe. -/
theorem transport_error_aborts_loop
    (probe : Nat → Except String (Reply InletStatus))
    (retry_wait : Nat) (pb : Bool) (fuel attempt : Nat) (err : String)
    (hp : probe attempt = Except.error err) :
    create_inlet_loop probe retry_wait pb (fuel + 1) attempt
      = ([InletEvent.probe attempt], false,
          LoopOutcome.fatal (FatalErr.apiError err)) := by
  simp [create_inlet_loop, hp]

/-- `tcp-inlet create` arguments with `--retry-wait 0` and a plain service
route. -/
def cmdRetryZero : CreateCommand :=
  { at_node := none, from_addr := "127.0.0.1:4000"
    to_route := [ProtoCode.service, ProtoCode.secure, ProtoCode.service]
    authorized := none, inlet_alias := none
    connection_wait := 5000, retry_wait := 0, timeout := none }

/-- `tcp-inlet create` arguments targeting a project route together with
`--authorized`. -/
def cmdProjectAuthorized : CreateCommand :=
  { at_node := none, from_addr := "127.0.0.1:4000"
    to_route := [ProtoCode.project, ProtoCode.service, ProtoCode.secure,
      ProtoCode.service]
    authorized := some "I1234abcd", inlet_alias := none
    connection_wait := 5000, retry_wait := 20000, timeout := none }

/-- A remote that answers every probe with a retryable failure. -/
def probeAlwaysUnavailable : Nat → Except String (Reply InletStatus) :=
  fun _ => Except.ok (Reply.failed ⟨none⟩ (some Status.internalServerError))

/-- A remote that rejects every probe as a bad request. -/
def probeBadRequest : Nat → Except String (Reply InletStatus) :=
  fun _ => Except.ok (Reply.failed ⟨some "invalid inlet request"⟩
    (some Status.badRequest))

/-- A call-level transport failure. -/
def probeTransportError : Nat → Except String (Reply InletStatus) :=
  fun _ => Except.error "connection reset"

/-- The inlet status a healthy remote returns, echoing the requested bind
address. -/
def inletOk : InletStatus :=
  { bind_addr := "127.0.0.1:4000", worker_addr := "inlet_worker"
    inlet_alias := "inlet1", outlet_route := "outlet" }

/-- A remote that succeeds on the first probe. -/
def probeSuccess : Nat → Except String (Reply InletStatus) :=
  fun _ => Except.ok (Reply.successful inletOk)

/-- Witness for C2 at a concrete command and remote. -/
theorem zero_retry_wait_fails_after_one_probe_witness :
    rpc cmdRetryZero true false probeAlwaysUnavailable 1
      = ([InletEvent.probe 0], RpcResult.err FatalErr.failedToCreateInlet) :=
  zero_retry_wait_fails_after_one_probe cmdRetryZero false probeAlwaysUnavailable 0
    rfl rfl
    (fun _ => ⟨⟨none⟩, some Status.internalServerError, rfl, by decide⟩)

/-- Witness for C3 at a concrete remote. -/
theorem bad_request_reply_is_fatal_witness :
    create_inlet_loop probeBadRequest 20000 false 1 0
      = ([InletEvent.probe 0], false,
          LoopOutcome.fatal (FatalErr.badRequest "invalid inlet request")) :=
  bad_request_reply_is_fatal probeBadRequest 20000 false 0 0
    ⟨some "invalid inlet request"⟩ rfl

/-- Witness for C5 at a concrete command. -/
theorem authorized_with_project_fails_before_any_probe_witness :
    (rpc cmdProjectAuthorized true false probeAlwaysUnavailable 3).1 = [] ∧
    (∃ e, (rpc cmdProjectAuthorized true false probeAlwaysUnavailable 3).2
      = RpcResult.err e) ∧
    (true = true →
      rpc cmdProjectAuthorized true false probeAlwaysUnavailable 3
        = ([], RpcResult.err FatalErr.authorizedWithProject)) :=
  authorized_with_project_fails_before_any_probe cmdProjectAuthorized true false
    probeAlwaysUnavailable 3 rfl rfl

/-- Witness for C9 at a concrete command and remote. -/
theorem first_probe_success_reports_from_addr_witness :
    rpc cmdRetryZero true false probeSuccess 1
      = ([InletEvent.probe 0], RpcResult.ok cmdRetryZero.from_addr true) ∧
    reporterStopped true = true :=
  first_probe_success_reports_from_addr cmdRetryZero false probeSuccess 0 inletOk
    rfl rfl rfl

/-- Witness for C10 at a concrete transport failure. -/
theorem transport_error_aborts_loop_witness :
    create_inlet_loop probeTransportError 20000 false 1 0
      = ([InletEvent.probe 0], false,
          LoopOutcome.fatal (FatalErr.apiError "connection reset")) :=
  transport_error_aborts_loop probeTransportError 20000 false 0 0 "connection reset" rfl

end InletCreate
